import Mathlib

/-!
Verification of the x402-policykit repository core against its specification.

The TypeScript sources are shallowly embedded:
* USD amounts (IEEE doubles in the source, used only for `+`, `-`, comparison
  and fixed-point formatting) are modelled as `Rat`;
* base-unit token amounts (decimal strings fed to `BigInt` in the source) are
  modelled as `Int`;
* JS `Date` values / unix timestamps are modelled as `Int` and passed in as an
  explicit `now` argument wherever the source calls `Date.now()`;
* optional JS fields are `Option`; an optional string-list field that the code
  treats identically when `undefined` and when `[]` is modelled as a plain
  list (empty = unconfigured), exactly matching the code's
  `!xs || xs.length === 0` test;
* JS objects used as string-keyed maps are association lists, with
  `Map.set`-style update modelled as shadowing prepend (lookup finds the
  newest binding first).
-/

namespace X402

/-! ## Policy engine data model (packages/policy-engine/src/types.ts) -/

/-- One entry of the heterogeneous `values` debug bag of a `RuleTrace`
(`Record<string, unknown>` in the source). -/
inductive TraceVal where
  | b (v : Bool)
  | q (v : Rat)
  | s (v : String)
  | ls (v : List String)
  deriving Repr, DecidableEq

/-- `Policy` from types.ts.  `weeklyCapUsd?: number` stays an `Option`;
the four tool/domain lists are plain lists because the rules treat a missing
list and an empty list identically. -/
structure Policy where
  id : String
  name : String
  dailyCapUsd : Rat
  weeklyCapUsd : Option Rat
  perCallCapUsd : Rat
  allowTools : List String
  denyTools : List String
  allowDomains : List String
  denyDomains : List String
  endpointCaps : List (String × Rat)
  enabled : Bool
  deriving Repr, DecidableEq

/-- `SpendContext` from types.ts. -/
structure SpendContext where
  callerId : String
  dailySpentUsd : Rat
  weeklySpentUsd : Rat
  dailyCallCount : Nat
  timestamp : Int
  deriving Repr, DecidableEq

/-- `PaymentRequest` from types.ts (the `metadata` bag is not modelled). -/
structure PaymentRequest where
  endpoint : String
  tool : String
  domain : String
  priceUsd : Rat
  callerId : String
  deriving Repr, DecidableEq

/-- `RuleTrace` from types.ts. -/
structure RuleTrace where
  ruleId : String
  ruleName : String
  passed : Bool
  reason : String
  values : List (String × TraceVal)
  deriving Repr, DecidableEq

/-- `PolicyDecision` from types.ts. -/
structure PolicyDecision where
  allow : Bool
  reason : String
  ruleId : String
  projectedSpend : Rat
  currentDailySpend : Rat
  currentWeeklySpend : Rat
  remainingDailyBudget : Rat
  remainingWeeklyBudget : Option Rat
  policyId : String
  timestamp : Int
  trace : List RuleTrace
  deriving Repr, DecidableEq

/-! ## Number formatting used by rule reason strings (`x.toFixed(n)`) -/

/-- Left-pad a digit string with zeros to length `n`. -/
def padLeftZeros (s : String) (n : Nat) : String :=
  String.mk (List.replicate (n - s.length) '0') ++ s

/-- Model of JS `x.toFixed(digits)` on a rational: round half-up to `digits`
decimal places and render with a fixed number of fraction digits. -/
def ratToFixed (x : Rat) (digits : Nat) : String :=
  let m : Int := round (x * (10 : Rat) ^ digits)
  let sign := if m < 0 then "-" else ""
  let n : Nat := m.natAbs
  let base : Nat := 10 ^ digits
  if digits = 0 then
    sign ++ toString n
  else
    sign ++ toString (n / base) ++ "." ++ padLeftZeros (toString (n % base)) digits

/-! ## Rules (packages/policy-engine/src/rules.ts) -/

/-- `RuleFunction` from rules.ts: a pure function from policy, request and
spend context to one rule verdict. -/
def RuleFunction : Type :=
  Policy → PaymentRequest → SpendContext → RuleTrace

/-- `policyEnabledRule` from rules.ts. -/
def policyEnabledRule : RuleFunction := fun policy _ _ =>
  { ruleId := "policy_enabled"
    ruleName := "Policy Enabled Check"
    passed := policy.enabled
    reason :=
      if policy.enabled then "Policy is enabled"
      else "Policy is disabled - all payments blocked"
    values := [("enabled", TraceVal.b policy.enabled)] }

/-- The effective per-call cap of `perCallCapRule`:
`policy.endpointCaps?.[request.endpoint] ?? policy.perCallCapUsd`. -/
def effectivePerCallCap (policy : Policy) (request : PaymentRequest) : Rat :=
  (policy.endpointCaps.lookup request.endpoint).getD policy.perCallCapUsd

/-- `perCallCapRule` from rules.ts. -/
def perCallCapRule : RuleFunction := fun policy request _ =>
  let cap := effectivePerCallCap policy request
  let passed := decide (request.priceUsd ≤ cap)
  { ruleId := "per_call_cap"
    ruleName := "Per-Call Cap"
    passed
    reason :=
      if passed then
        "Price $" ++ ratToFixed request.priceUsd 4 ++
          " within per-call cap of $" ++ ratToFixed cap 2
      else
        "Price $" ++ ratToFixed request.priceUsd 4 ++
          " exceeds per-call cap of $" ++ ratToFixed cap 2
    values :=
      [("price", TraceVal.q request.priceUsd),
       ("cap", TraceVal.q cap),
       ("endpoint", TraceVal.s request.endpoint),
       ("hasCustomCap",
        TraceVal.b (policy.endpointCaps.lookup request.endpoint).isSome)] }

/-- `dailyCapRule` from rules.ts. -/
def dailyCapRule : RuleFunction := fun policy request context =>
  let projectedSpend := context.dailySpentUsd + request.priceUsd
  let passed := decide (projectedSpend ≤ policy.dailyCapUsd)
  { ruleId := "daily_cap"
    ruleName := "Daily Cap"
    passed
    reason :=
      if passed then
        "Projected daily spend $" ++ ratToFixed projectedSpend 4 ++
          " within cap of $" ++ ratToFixed policy.dailyCapUsd 2
      else
        "Projected daily spend $" ++ ratToFixed projectedSpend 4 ++
          " exceeds cap of $" ++ ratToFixed policy.dailyCapUsd 2
    values :=
      [("currentSpend", TraceVal.q context.dailySpentUsd),
       ("requestPrice", TraceVal.q request.priceUsd),
       ("projectedSpend", TraceVal.q projectedSpend),
       ("cap", TraceVal.q policy.dailyCapUsd),
       ("remaining", TraceVal.q (policy.dailyCapUsd - context.dailySpentUsd))] }

/-- The verdict `weeklyCapRule` returns when `!policy.weeklyCapUsd` is truthy
(field absent, or present and `0`: JS number falsiness). -/
def weeklyCapUnconfigured : RuleTrace :=
  { ruleId := "weekly_cap"
    ruleName := "Weekly Cap"
    passed := true
    reason := "No weekly cap configured"
    values := [("configured", TraceVal.b false)] }

/-- `weeklyCapRule` from rules.ts.  The source guard `if (!policy.weeklyCapUsd)`
treats both an absent field and an explicit `0` as "no weekly cap". -/
def weeklyCapRule : RuleFunction := fun policy request context =>
  match policy.weeklyCapUsd with
  | none => weeklyCapUnconfigured
  | some w =>
    if w = 0 then weeklyCapUnconfigured
    else
      let projectedSpend := context.weeklySpentUsd + request.priceUsd
      let passed := decide (projectedSpend ≤ w)
      { ruleId := "weekly_cap"
        ruleName := "Weekly Cap"
        passed
        reason :=
          if passed then
            "Projected weekly spend $" ++ ratToFixed projectedSpend 4 ++
              " within cap of $" ++ ratToFixed w 2
          else
            "Projected weekly spend $" ++ ratToFixed projectedSpend 4 ++
              " exceeds cap of $" ++ ratToFixed w 2
        values :=
          [("currentSpend", TraceVal.q context.weeklySpentUsd),
           ("requestPrice", TraceVal.q request.priceUsd),
           ("projectedSpend", TraceVal.q projectedSpend),
           ("cap", TraceVal.q w),
           ("remaining", TraceVal.q (w - context.weeklySpentUsd))] }

/-- `toolAllowlistRule` from rules.ts. -/
def toolAllowlistRule : RuleFunction := fun policy request _ =>
  if policy.allowTools = [] then
    { ruleId := "tool_allowlist"
      ruleName := "Tool Allowlist"
      passed := true
      reason := "No tool allowlist configured - all tools allowed"
      values := [("configured", TraceVal.b false)] }
  else
    let passed := policy.allowTools.contains request.tool
    { ruleId := "tool_allowlist"
      ruleName := "Tool Allowlist"
      passed
      reason :=
        if passed then
          "Tool \"" ++ request.tool ++ "\" is in allowlist"
        else
          "Tool \"" ++ request.tool ++ "\" is not in allowlist [" ++
            String.intercalate ", " policy.allowTools ++ "]"
      values :=
        [("tool", TraceVal.s request.tool),
         ("allowlist", TraceVal.ls policy.allowTools)] }

/-- `toolDenylistRule` from rules.ts. -/
def toolDenylistRule : RuleFunction := fun policy request _ =>
  if policy.denyTools = [] then
    { ruleId := "tool_denylist"
      ruleName := "Tool Denylist"
      passed := true
      reason := "No tool denylist configured"
      values := [("configured", TraceVal.b false)] }
  else
    let passed := !(policy.denyTools.contains request.tool)
    { ruleId := "tool_denylist"
      ruleName := "Tool Denylist"
      passed
      reason :=
        if passed then
          "Tool \"" ++ request.tool ++ "\" is not in denylist"
        else
          "Tool \"" ++ request.tool ++ "\" is blocked by denylist"
      values :=
        [("tool", TraceVal.s request.tool),
         ("denylist", TraceVal.ls policy.denyTools)] }

/-- Domain membership used by both domain rules:
`domain === entry || domain.endsWith("." + entry)`. -/
def domainListMatches (entries : List String) (domain : String) : Bool :=
  entries.any fun d => domain == d || domain.endsWith ("." ++ d)

/-- `domainAllowlistRule` from rules.ts. -/
def domainAllowlistRule : RuleFunction := fun policy request _ =>
  if policy.allowDomains = [] then
    { ruleId := "domain_allowlist"
      ruleName := "Domain Allowlist"
      passed := true
      reason := "No domain allowlist configured - all domains allowed"
      values := [("configured", TraceVal.b false)] }
  else
    let passed := domainListMatches policy.allowDomains request.domain
    { ruleId := "domain_allowlist"
      ruleName := "Domain Allowlist"
      passed
      reason :=
        if passed then
          "Domain \"" ++ request.domain ++ "\" is in allowlist"
        else
          "Domain \"" ++ request.domain ++ "\" is not in allowlist [" ++
            String.intercalate ", " policy.allowDomains ++ "]"
      values :=
        [("domain", TraceVal.s request.domain),
         ("allowlist", TraceVal.ls policy.allowDomains)] }

/-- `domainDenylistRule` from rules.ts. -/
def domainDenylistRule : RuleFunction := fun policy request _ =>
  if policy.denyDomains = [] then
    { ruleId := "domain_denylist"
      ruleName := "Domain Denylist"
      passed := true
      reason := "No domain denylist configured"
      values := [("configured", TraceVal.b false)] }
  else
    let passed := !(domainListMatches policy.denyDomains request.domain)
    { ruleId := "domain_denylist"
      ruleName := "Domain Denylist"
      passed
      reason :=
        if passed then
          "Domain \"" ++ request.domain ++ "\" is not in denylist"
        else
          "Domain \"" ++ request.domain ++ "\" is blocked by denylist"
      values :=
        [("domain", TraceVal.s request.domain),
         ("denylist", TraceVal.ls policy.denyDomains)] }

/-- `ALL_RULES` from rules.ts: the fixed evaluation order. -/
def ALL_RULES : List RuleFunction :=
  [policyEnabledRule,
   toolDenylistRule,
   domainDenylistRule,
   toolAllowlistRule,
   domainAllowlistRule,
   perCallCapRule,
   dailyCapRule,
   weeklyCapRule]

/-! ## Evaluator (packages/policy-engine/src/evaluator.ts) -/

/-- `EvaluatorOptions` from evaluator.ts. -/
structure EvaluatorOptions where
  rules : Option (List RuleFunction) := none
  fullTrace : Bool := false

/-- The rule loop of `evaluatePolicy`: returns the accumulated trace and the
first failing verdict.  In short-circuit mode (`fullTrace = false`) the loop
breaks at the first failure; in full-trace mode it keeps running but the first
failure stays authoritative. -/
def runRules (fullTrace : Bool) (policy : Policy) (request : PaymentRequest)
    (context : SpendContext) : List RuleFunction → List RuleTrace × Option RuleTrace
  | [] => ([], none)
  | rule :: rest =>
    if (rule policy request context).passed then
      ((rule policy request context) :: (runRules fullTrace policy request context rest).1,
       (runRules fullTrace policy request context rest).2)
    else if fullTrace then
      ((rule policy request context) :: (runRules fullTrace policy request context rest).1,
       some (rule policy request context))
    else
      ([rule policy request context], some (rule policy request context))

/-- `evaluatePolicy` from evaluator.ts.  `now` stands for the `new Date()`
taken for the decision's `timestamp` field. -/
def evaluatePolicy (policy : Policy) (request : PaymentRequest)
    (context : SpendContext) (options : EvaluatorOptions) (now : Int) : PolicyDecision :=
  let rules := options.rules.getD ALL_RULES
  let res := runRules options.fullTrace policy request context rules
  let failedRule := res.2
  let projectedSpend := context.dailySpentUsd + request.priceUsd
  { allow := failedRule.isNone
    reason := (failedRule.map fun t => t.reason).getD "All policy rules passed"
    ruleId := (failedRule.map fun t => t.ruleId).getD "all_passed"
    projectedSpend
    currentDailySpend := context.dailySpentUsd
    currentWeeklySpend := context.weeklySpentUsd
    remainingDailyBudget := max 0 (policy.dailyCapUsd - projectedSpend)
    remainingWeeklyBudget :=
      match policy.weeklyCapUsd with
      | none => none
      | some w =>
        if w = 0 then none
        else some (max 0 (w - (context.weeklySpentUsd + request.priceUsd)))
    policyId := policy.id
    timestamp := now
    trace := res.1 }

/-- The list of all rule verdicts in rule order (what full-trace mode records). -/
def ruleResults (rules : List RuleFunction) (policy : Policy)
    (request : PaymentRequest) (context : SpendContext) : List RuleTrace :=
  rules.map fun rule => rule policy request context

/-- The prefix of a verdict list ending at the first failing verdict
(the whole list when every verdict passes). -/
def takeToFirstFailure : List RuleTrace → List RuleTrace
  | [] => []
  | t :: ts => if t.passed then t :: takeToFirstFailure ts else [t]

/-- `createSpendContext` from evaluator.ts together with `EMPTY_SPEND_CONTEXT`. -/
def createSpendContext (callerId : String) (now : Int) : SpendContext :=
  { callerId
    dailySpentUsd := 0
    weeklySpentUsd := 0
    dailyCallCount := 0
    timestamp := now }

/-- The path/host parts of a resolved URL (`new URL(url).pathname/hostname`). -/
structure UrlParts where
  path : String
  host : String
  deriving Repr, DecidableEq

/-- `parsePaymentRequest` from evaluator.ts: the tool is the last non-empty
path segment, `"unknown"` when there is none. -/
def parsePaymentRequest (u : UrlParts) (priceUsd : Rat) (callerId : String) :
    PaymentRequest :=
  let pathParts := (u.path.splitOn "/").filter fun s => !(s == "")
  { endpoint := u.path
    tool := pathParts.getLast?.getD "unknown"
    domain := u.host
    priceUsd
    callerId }

/-! ## Payment header wire format

The payment header is `btoa(JSON.stringify(payload))` on the wire.  Base64 and
JSON round-trip this flat payload of strings and integers losslessly, so the
wire value is modelled as the structured payload itself; a header that fails
`atob`/`JSON.parse` is the `malformed` case.  The base-unit `amount` (a decimal
string fed to `BigInt` in the source) is modelled as the integer it denotes. -/

/-- The JSON payload of a payment header (field names from createPaymentHeader
in x402-client/src/payment.ts). -/
structure WirePayload where
  sig : String
  payer : String
  nonce : String
  expiry : Int
  amount : Int
  token : String
  chainId : Int
  txHash : Option String
  deriving Repr, DecidableEq

/-- A received payment header: either undecodable or a decoded payload. -/
inductive WireHeader where
  | malformed
  | payload (p : WirePayload)
  deriving Repr, DecidableEq

namespace Client

/-- `PaymentProof` from x402-client/src/types.ts. -/
structure PaymentProof where
  signature : String
  payer : String
  nonce : String
  expiry : Int
  amount : Int
  token : String
  chainId : Int
  txHash : Option String
  deriving Repr, DecidableEq

/-- `createPaymentHeader` from x402-client/src/payment.ts.  The JS spread
`...(proof.txHash && { txHash })` omits the field when `txHash` is absent or
the empty string (falsy). -/
def createPaymentHeader (proof : PaymentProof) : WirePayload :=
  { sig := proof.signature
    payer := proof.payer
    nonce := proof.nonce
    expiry := proof.expiry
    amount := proof.amount
    token := proof.token
    chainId := proof.chainId
    txHash :=
      match proof.txHash with
      | none => none
      | some t => if t = "" then none else some t }

/-- `parsePaymentHeader` from x402-client/src/payment.ts: rejects a header
whose payload lacks a truthy `sig`, `payer` or `nonce`. -/
def parsePaymentHeader : WireHeader → Option PaymentProof
  | WireHeader.malformed => none
  | WireHeader.payload p =>
    if p.sig = "" || p.payer = "" || p.nonce = "" then none
    else
      some { signature := p.sig
             payer := p.payer
             nonce := p.nonce
             expiry := p.expiry
             amount := p.amount
             token := p.token
             chainId := p.chainId
             txHash := p.txHash }

end Client

namespace Worker

/-- `ParsedPayment` from x402-worker/src/types.ts. -/
structure ParsedPayment where
  signature : String
  payer : String
  nonce : String
  expiry : Int
  amount : Int
  token : String
  chainId : Int
  txHash : Option String
  deriving Repr, DecidableEq

/-- `parsePaymentHeader` from x402-worker/src/verification.ts (it has the same
logic as the client-side parser). -/
def parsePaymentHeader : WireHeader → Option ParsedPayment
  | WireHeader.malformed => none
  | WireHeader.payload p =>
    if p.sig = "" || p.payer = "" || p.nonce = "" then none
    else
      some { signature := p.sig
             payer := p.payer
             nonce := p.nonce
             expiry := p.expiry
             amount := p.amount
             token := p.token
             chainId := p.chainId
             txHash := p.txHash }

/-- `EndpointPricing` from x402-worker/src/types.ts (`priceToken` is the
base-unit decimal string, modelled as the integer it denotes). -/
structure EndpointPricing where
  priceUsd : Rat
  priceToken : Int
  token : String
  chainId : Int
  description : Option String
  schemes : Option (List String)
  deriving Repr, DecidableEq

/-- One value of the `pricing: Record<string, EndpointPricing | number>` map. -/
inductive PricingEntry where
  | usd (v : Rat)
  | full (p : EndpointPricing)
  deriving Repr, DecidableEq

/-- `PaywallConfig` from x402-worker/src/types.ts.  The external `db`/`kv`
bindings are reduced to presence flags (their state is threaded separately);
the optional booleans default to the falsy behaviour of `undefined`. -/
structure PaywallConfig where
  sellerAddress : String
  defaultToken : String
  defaultChainId : Int
  pricing : List (String × PricingEntry)
  defaultPriceUsd : Option Rat
  expiryDuration : Option Int
  verifySignatures : Bool
  checkReplay : Bool
  hasDb : Bool
  hasKv : Bool

/-- `usdToToken` from x402-worker/src/pricing.ts: `Math.round(usd * 10**decimals)`. -/
def usdToToken (usd : Rat) (decimals : Nat := 6) : Int :=
  round (usd * (10 : Rat) ^ decimals)

/-- Tokens of a pricing pattern: the source turns `**` into `.*` and `*` into
`[^/]*` (replacing `**` first), all other characters standing for themselves. -/
inductive PatTok where
  | lit (c : Char)
  | star
  | dstar
  deriving Repr, DecidableEq

/-- Tokenize a pattern, consuming `**` before `*` as the source's replace
order does. -/
def tokenizePattern : List Char → List PatTok
  | [] => []
  | '*' :: '*' :: rest => PatTok.dstar :: tokenizePattern rest
  | '*' :: rest => PatTok.star :: tokenizePattern rest
  | c :: rest => PatTok.lit c :: tokenizePattern rest

/-- Anchored matching of the token list against the path, with the regex
backtracking semantics of `^pattern$`: `star` matches any run of non-slash
characters, `dstar` any run of characters.  (Pattern characters other than
`*` are matched literally; the source interpolates them into a RegExp, and
the repository's pricing patterns contain no other regex metacharacters.) -/
def patMatch : Nat → List PatTok → List Char → Bool
  | 0, _, _ => false
  | Nat.succ fuel, ts, ds =>
    match ts, ds with
    | [], [] => true
    | [], _ :: _ => false
    | PatTok.lit _ :: _, [] => false
    | PatTok.lit c :: ts2, d :: ds2 => c == d && patMatch fuel ts2 ds2
    | PatTok.star :: ts2, ds =>
      patMatch fuel ts2 ds ||
        (match ds with
         | [] => false
         | d :: ds2 => !(d == '/') && patMatch fuel (PatTok.star :: ts2) ds2)
    | PatTok.dstar :: ts2, ds =>
      patMatch fuel ts2 ds ||
        (match ds with
         | [] => false
         | _ :: ds2 => patMatch fuel (PatTok.dstar :: ts2) ds2)

/-- `matchPattern` from x402-worker/src/pricing.ts.  Every recursive step of
`patMatch` strictly decreases `ts.length + ds.length`, so the supplied fuel of
`ts.length + ds.length + 1` can never run out; fuel is purely an embedding
artifact keeping the backtracking matcher structurally recursive. -/
def matchPattern (path pattern : String) : Bool :=
  let ts := tokenizePattern pattern.data
  patMatch (ts.length + path.data.length + 1) ts path.data

/-- `normalizePricing` from x402-worker/src/pricing.ts. -/
def normalizePricing (entry : PricingEntry) (config : PaywallConfig) :
    EndpointPricing :=
  match entry with
  | PricingEntry.usd v =>
    { priceUsd := v
      priceToken := usdToToken v
      token := config.defaultToken
      chainId := config.defaultChainId
      description := none
      schemes := none }
  | PricingEntry.full p => p

/-- `getPriceForEndpoint` from x402-worker/src/pricing.ts: exact key, then the
first wildcard-matching entry in insertion order, then the default price. -/
def getPriceForEndpoint (endpoint : String) (config : PaywallConfig) :
    Option EndpointPricing :=
  match config.pricing.lookup endpoint with
  | some entry => some (normalizePricing entry config)
  | none =>
    match config.pricing.find? fun e => matchPattern endpoint e.1 with
    | some e => some (normalizePricing e.2 config)
    | none =>
      match config.defaultPriceUsd with
      | some d => some (normalizePricing (PricingEntry.usd d) config)
      | none => none

/-- JS `String.prototype.toLowerCase` modelled at the character-list level
(equivalent to `String.toLower`, but kernel-reducible). -/
def strToLower (s : String) : String :=
  String.mk (s.data.map Char.toLower)

/-- `VerificationResult` from x402-worker/src/verification.ts. -/
structure VerificationResult where
  valid : Bool
  reason : Option String
  deriving Repr, DecidableEq

/-- `verifySignature` from x402-worker/src/verification.ts: the structural-only
stub (non-empty, at least 130 characters, `0x` prefix). -/
def verifySignature (payment : ParsedPayment) : Bool :=
  if payment.signature = "" || payment.signature.length < 130 then false
  else payment.signature.startsWith "0x"

/-- `verifyPayment` from x402-worker/src/verification.ts.  `now` stands for
`Math.floor(Date.now() / 1000)`. -/
def verifyPayment (now : Int) (payment : ParsedPayment)
    (pricing : EndpointPricing) (config : PaywallConfig) : VerificationResult :=
  if payment.expiry < now then
    { valid := false, reason := some "Payment has expired" }
  else if !(strToLower payment.token == strToLower pricing.token) then
    { valid := false, reason := some "Token mismatch" }
  else if !(payment.chainId == pricing.chainId) then
    { valid := false, reason := some "Chain ID mismatch" }
  else if payment.amount < pricing.priceToken then
    { valid := false, reason := some "Insufficient payment amount" }
  else if config.verifySignatures then
    if verifySignature payment then { valid := true, reason := none }
    else { valid := false, reason := some "Invalid signature" }
  else
    { valid := true, reason := none }

/-- `PaywallContext` from x402-worker/src/types.ts. -/
structure PaywallContext where
  paid : Bool
  payment : Option ParsedPayment
  receiptId : Option String
  priceUsd : Rat
  nonce : String
  deriving Repr, DecidableEq

/-- A protected handler's response (status and body; headers not modelled). -/
structure HResp where
  status : Int
  body : String
  deriving Repr, DecidableEq

/-- The middleware's response to the caller. -/
inductive MWResponse where
  /-- Unpriced endpoint: the handler's response passed through unmodified. -/
  | handlerResp (r : HResp)
  /-- 402 challenge carrying a fresh nonce and expiry. -/
  | challenge (nonce : String) (expiry : Int)
  /-- 400 "Invalid payment header format". -/
  | invalidHeader
  /-- 402 verification failure with the rejection reason and fresh challenge. -/
  | verifyRejected (reason : String) (nonce : String) (expiry : Int)
  /-- 400 "Payment nonce already used". -/
  | replayRejected
  /-- Paid path: the handler's response (same status/body) plus receipt headers. -/
  | paidResp (r : HResp) (receiptId : String)
  deriving Repr, DecidableEq

/-- HTTP status of a middleware response. -/
def MWResponse.status : MWResponse → Int
  | handlerResp r => r.status
  | challenge _ _ => 402
  | invalidHeader => 400
  | verifyRejected _ _ _ => 402
  | replayRejected => 400
  | paidResp r _ => r.status

/-- The `error` field of the JSON body of a middleware error response. -/
def MWResponse.errorBody : MWResponse → Option String
  | invalidHeader => some "Invalid payment header format"
  | verifyRejected reason _ _ => some reason
  | replayRejected => some "Payment nonce already used"
  | _ => none

/-- The nonce KV namespace, reduced to the set of keys that have been put. -/
structure KVStore where
  used : List String
  deriving Repr, DecidableEq

/-- An inbound request as the middleware observes it: path and the payment
header (`PAYMENT-SIGNATURE` falling back to `X-PAYMENT`), if any. -/
structure MWRequest where
  path : String
  header : Option WireHeader
  deriving Repr, DecidableEq

/-- Observable outcome of one middleware invocation. -/
structure MWOut where
  response : MWResponse
  handlerCalls : Nat
  handlerCtx : Option PaywallContext
  kvReads : Nat
  kvWrites : Nat
  receiptWrites : Nat
  deriving Repr, DecidableEq

/-- The paid tail of the middleware: build the paid context, run the handler,
count the best-effort receipt write (`ctx.waitUntil(storeReceipt ...)`, only
when `config.db` is present), and return the handler's status/body with the
receipt headers added. -/
def servePaid (config : PaywallConfig) (handler : PaywallContext → HResp)
    (pricing : EndpointPricing) (payment : ParsedPayment)
    (receiptId : String) (kvReads kvWrites : Nat) : MWOut :=
  let ctx : PaywallContext :=
    { paid := true
      payment := some payment
      receiptId := some receiptId
      priceUsd := pricing.priceUsd
      nonce := payment.nonce }
  { response := MWResponse.paidResp (handler ctx) receiptId
    handlerCalls := 1
    handlerCtx := some ctx
    kvReads
    kvWrites
    receiptWrites := if config.hasDb then 1 else 0 }

/-- `withX402Paywall` from x402-worker/src/middleware.ts as a state-passing
function.  `now` is `Math.floor(Date.now() / 1000)`, `freshNonce` and
`freshReceiptId` stand for the random `generateNonce()`/`generateReceiptId()`
values, and the nonce KV namespace is threaded explicitly. -/
def withX402Paywall (config : PaywallConfig) (handler : PaywallContext → HResp)
    (req : MWRequest) (now : Int) (freshNonce freshReceiptId : String)
    (kv : KVStore) : MWOut × KVStore :=
  match getPriceForEndpoint req.path config with
  | none =>
    let ctx : PaywallContext :=
      { paid := false, payment := none, receiptId := none, priceUsd := 0, nonce := "" }
    ({ response := MWResponse.handlerResp (handler ctx)
       handlerCalls := 1
       handlerCtx := some ctx
       kvReads := 0
       kvWrites := 0
       receiptWrites := 0 }, kv)
  | some pricing =>
    let expiry := now + config.expiryDuration.getD 300
    match req.header with
    | none =>
      ({ response := MWResponse.challenge freshNonce expiry
         handlerCalls := 0
         handlerCtx := none
         kvReads := 0
         kvWrites := 0
         receiptWrites := 0 }, kv)
    | some wire =>
      match parsePaymentHeader wire with
      | none =>
        ({ response := MWResponse.invalidHeader
           handlerCalls := 0
           handlerCtx := none
           kvReads := 0
           kvWrites := 0
           receiptWrites := 0 }, kv)
      | some payment =>
        let verification := verifyPayment now payment pricing config
        if verification.valid = false then
          ({ response := MWResponse.verifyRejected (verification.reason.getD "")
               freshNonce expiry
             handlerCalls := 0
             handlerCtx := none
             kvReads := 0
             kvWrites := 0
             receiptWrites := 0 }, kv)
        else if config.checkReplay && config.hasKv then
          if kv.used.contains ("nonce:" ++ payment.nonce) then
            ({ response := MWResponse.replayRejected
               handlerCalls := 0
               handlerCtx := none
               kvReads := 1
               kvWrites := 0
               receiptWrites := 0 }, kv)
          else
            (servePaid config handler pricing payment freshReceiptId 1 1,
             { used := ("nonce:" ++ payment.nonce) :: kv.used })
        else
          (servePaid config handler pricing payment freshReceiptId 0 0, kv)

end Worker

namespace Client

/-- `X402Headers` from x402-client/src/types.ts (`price` is the base-unit
decimal string, modelled as the integer it denotes). -/
structure X402Headers where
  price : Int
  priceUsd : Rat
  token : String
  seller : String
  chainId : Int
  expiry : Int
  nonce : String
  description : Option String
  schemes : Option (List String)
  deriving Repr, DecidableEq

/-- One payment row of `InMemorySpendStorage` (x402-client/src/storage.ts). -/
structure PaymentRec where
  callerId : String
  amountUsd : Rat
  endpoint : String
  nonce : String
  paymentRef : String
  deriving Repr, DecidableEq

/-- One decision row of `InMemorySpendStorage`. -/
structure DecisionRec where
  callerId : String
  decision : PolicyDecision
  endpoint : String
  priceUsd : Rat
  deriving Repr, DecidableEq

/-- The state of an `InMemorySpendStorage` ledger: per-caller contexts plus
append-only payment and decision logs.  `Map.set` is modelled as a shadowing
prepend (`lookup` finds the newest binding). -/
structure Ledger where
  contexts : List (String × SpendContext)
  payments : List PaymentRec
  decisions : List DecisionRec
  deriving Repr, DecidableEq

/-- `InMemorySpendStorage.getSpendContext`: return the stored context, creating
and storing a fresh one for an unknown caller. -/
def getSpendContext (callerId : String) (now : Int) (st : Ledger) :
    SpendContext × Ledger :=
  match st.contexts.lookup callerId with
  | some c => (c, st)
  | none =>
    let c := createSpendContext callerId now
    (c, { st with contexts := (callerId, c) :: st.contexts })

/-- `InMemorySpendStorage.recordPayment`: bump the caller's daily and weekly
accumulators and daily call count, and append a payment row. -/
def recordPayment (callerId : String) (amountUsd : Rat)
    (endpoint nonce paymentRef : String) (now : Int) (st : Ledger) : Ledger :=
  let res := getSpendContext callerId now st
  let c := res.1
  let st1 := res.2
  let c2 : SpendContext :=
    { c with
      dailySpentUsd := c.dailySpentUsd + amountUsd
      weeklySpentUsd := c.weeklySpentUsd + amountUsd
      dailyCallCount := c.dailyCallCount + 1
      timestamp := now }
  { st1 with
    contexts := (callerId, c2) :: st1.contexts
    payments := st1.payments ++ [⟨callerId, amountUsd, endpoint, nonce, paymentRef⟩] }

/-- `InMemorySpendStorage.recordDecision`: append a decision row. -/
def recordDecision (callerId : String) (decision : PolicyDecision)
    (endpoint : String) (priceUsd : Rat) (st : Ledger) : Ledger :=
  { st with decisions := st.decisions ++ [⟨callerId, decision, endpoint, priceUsd⟩] }

/-- `X402FetchOptions` from x402-client/src/types.ts (callbacks omitted;
`storage` is threaded explicitly). -/
structure X402FetchOptions where
  policy : Policy
  callerId : String
  autoPay : Bool := true
  maxRetries : Nat := 1

/-- A response to the paid retry: HTTP status and the optional
`X-RECEIPT-ID` header. -/
structure RetryResp where
  status : Int
  receiptId : Option String
  deriving Repr, DecidableEq

/-- JS `Response.ok`: status in the inclusive range 200-299. -/
def RetryResp.ok (r : RetryResp) : Bool :=
  decide (200 ≤ r.status) && decide (r.status < 300)

/-- The external world as `x402Fetch` observes it: the initial response's
status, the decoded challenge headers (when the 402 carried decodable ones),
the wallet (`none` = `signPayment` threw), and the transport result of each
paid retry attempt (`none` = `fetch` threw). -/
structure FetchEnv where
  initialStatus : Int
  headers : Option X402Headers
  signResult : Option String
  walletAddress : String
  attempts : List (Option RetryResp)
  deriving Repr, DecidableEq

/-- How one `x402Fetch` call ends: a returned response (`notRequired` with
`x402Paid = false`, or `paid` with `x402Paid = true` plus the attached proof
and decision), or one of the thrown errors. -/
inductive FetchOutcome where
  | notRequired (status : Int)
  | protocolError (message : String)
  | policyBlocked (message : String) (decision : PolicyDecision) (headers : X402Headers)
  | signFailed (message : String) (headers : X402Headers)
  | paid (status : Int) (proof : PaymentProof) (decision : PolicyDecision)
      (receiptId : Option String)
  | transportFailed (message : String) (headers : X402Headers)
  deriving Repr, DecidableEq

/-- Observable outcome of one `x402Fetch` call: the outcome, the ledger after
the call, whether the signing capability was invoked, and whether
`recordPayment` ran. -/
structure FetchOut where
  outcome : FetchOutcome
  ledger : Ledger
  signCalls : Nat
  paymentRecorded : Bool
  deriving Repr, DecidableEq

/-- The retry loop of `x402Fetch` (`while (retryCount < maxRetries)`): a
transport failure consumes one unit of budget; a transport success returns the
response as paid, recording the payment first iff the response is `ok`. -/
def retryLoop (callerId endpoint : String) (priceUsd : Rat) (h : X402Headers)
    (proof : PaymentProof) (decision : PolicyDecision) (now : Int)
    (maxRetries : Nat) :
    Nat → List (Option RetryResp) → Ledger → FetchOut
  | 0, _, st =>
    { outcome := FetchOutcome.transportFailed
        ("Payment request failed after " ++ toString maxRetries ++ " retries") h
      ledger := st
      signCalls := 1
      paymentRecorded := false }
  | Nat.succ budget, attempts, st =>
    match attempts with
    | [] => retryLoop callerId endpoint priceUsd h proof decision now maxRetries budget [] st
    | none :: rest =>
      retryLoop callerId endpoint priceUsd h proof decision now maxRetries budget rest st
    | some r :: _ =>
      let recorded := r.ok
      let stP :=
        if recorded then
          recordPayment callerId priceUsd endpoint h.nonce
            (proof.signature.take 16) now st
        else st
      { outcome := FetchOutcome.paid r.status proof decision r.receiptId
        ledger := stP
        signCalls := 1
        paymentRecorded := recorded }

/-- The policy decision `x402Fetch` computes on a 402 with decodable headers:
the caller's stored spend context evaluated against the policy with
`fullTrace: true`. -/
def fetchDecision (options : X402FetchOptions) (u : UrlParts) (h : X402Headers)
    (now : Int) (st : Ledger) : PolicyDecision :=
  evaluatePolicy options.policy (parsePaymentRequest u h.priceUsd options.callerId)
    (getSpendContext options.callerId now st).1 { rules := none, fullTrace := true } now

/-- `x402Fetch` from x402-client/src/x402-fetch.ts as a pure function of the
observed environment and the ledger state. -/
def x402Fetch (options : X402FetchOptions) (u : UrlParts) (env : FetchEnv)
    (now : Int) (st : Ledger) : FetchOut :=
  if env.initialStatus ≠ 402 then
    { outcome := FetchOutcome.notRequired env.initialStatus
      ledger := st
      signCalls := 0
      paymentRecorded := false }
  else
    match env.headers with
    | none =>
      { outcome := FetchOutcome.protocolError
          "Invalid 402 response - missing required headers"
        ledger := st
        signCalls := 0
        paymentRecorded := false }
    | some h =>
      let st1 := (getSpendContext options.callerId now st).2
      let paymentRequest := parsePaymentRequest u h.priceUsd options.callerId
      let decision := fetchDecision options u h now st
      let st2 := recordDecision options.callerId decision paymentRequest.endpoint
        h.priceUsd st1
      if decision.allow = false then
        { outcome := FetchOutcome.policyBlocked
            ("Payment blocked by policy: " ++ decision.reason) decision h
          ledger := st2
          signCalls := 0
          paymentRecorded := false }
      else if options.autoPay = false then
        { outcome := FetchOutcome.policyBlocked
            "Payment required but autoPay is disabled" decision h
          ledger := st2
          signCalls := 0
          paymentRecorded := false }
      else
        match env.signResult with
        | none =>
          { outcome := FetchOutcome.signFailed "Failed to generate payment" h
            ledger := st2
            signCalls := 1
            paymentRecorded := false }
        | some sig =>
          let proof : PaymentProof :=
            { signature := sig
              payer := env.walletAddress
              nonce := h.nonce
              expiry := h.expiry
              amount := h.price
              token := h.token
              chainId := h.chainId
              txHash := none }
          retryLoop options.callerId paymentRequest.endpoint h.priceUsd h proof
            decision now options.maxRetries options.maxRetries env.attempts st2

end Client

/-! ## Concrete inputs used by counterexamples and witnesses -/

/-- A policy whose weekly cap is explicitly configured as `0`. -/
def weeklyZeroPolicy : Policy :=
  { id := "p1"
    name := "Weekly Zero"
    dailyCapUsd := 10
    weeklyCapUsd := some 0
    perCallCapUsd := 10
    allowTools := []
    denyTools := []
    allowDomains := []
    denyDomains := []
    endpointCaps := []
    enabled := true }

/-- A permissive policy with a nonzero weekly cap. -/
def okPolicy : Policy :=
  { id := "p2"
    name := "Ok"
    dailyCapUsd := 10
    weeklyCapUsd := some 50
    perCallCapUsd := 2
    allowTools := []
    denyTools := []
    allowDomains := []
    denyDomains := []
    endpointCaps := []
    enabled := true }

/-- A policy listing the same tool and domain in both allow- and deny-lists. -/
def bothListsPolicy : Policy :=
  { id := "p3"
    name := "Both Lists"
    dailyCapUsd := 10
    weeklyCapUsd := none
    perCallCapUsd := 2
    allowTools := ["extract"]
    denyTools := ["extract"]
    allowDomains := ["example.com"]
    denyDomains := ["example.com"]
    endpointCaps := []
    enabled := true }

/-- A small concrete payment request. -/
def sampleRequest : PaymentRequest :=
  { endpoint := "/tool/extract"
    tool := "extract"
    domain := "api.example.com"
    priceUsd := 1
    callerId := "agent-1" }

/-- A spend context with plenty of accumulated weekly spend. -/
def weeklyHeavyContext : SpendContext :=
  { callerId := "agent-1"
    dailySpentUsd := 0
    weeklySpentUsd := 100
    dailyCallCount := 3
    timestamp := 0 }

/-- A fresh spend context. -/
def freshContext : SpendContext :=
  { callerId := "agent-1"
    dailySpentUsd := 0
    weeklySpentUsd := 0
    dailyCallCount := 0
    timestamp := 0 }

/-- A paywall config with signature verification disabled. -/
def c6Config : Worker.PaywallConfig :=
  { sellerAddress := "0xseller"
    defaultToken := "0xtok"
    defaultChainId := 84532
    pricing := []
    defaultPriceUsd := none
    expiryDuration := none
    verifySignatures := false
    checkReplay := false
    hasDb := false
    hasKv := false }

/-- A concrete pricing entry. -/
def c6Pricing : Worker.EndpointPricing :=
  { priceUsd := 1
    priceToken := 1000000
    token := "0xTok"
    chainId := 84532
    description := none
    schemes := none }

/-- A concrete parsed payment matching `c6Pricing` up to address case. -/
def c6Payment : Worker.ParsedPayment :=
  { signature := "0xsig"
    payer := "0xpayer"
    nonce := "n1"
    expiry := 100
    amount := 1000000
    token := "0xtoK"
    chainId := 84532
    txHash := none }

/-- A concrete payment proof with non-empty required string fields. -/
def c8Proof : Client.PaymentProof :=
  { signature := "0xabc"
    payer := "0xdef"
    nonce := "nonce-1"
    expiry := 42
    amount := 7
    token := "0xt"
    chainId := 1
    txHash := none }

/-- A paywall config pricing only `/tool/extract`, with no default price. -/
def c9Config : Worker.PaywallConfig :=
  { sellerAddress := "0xseller"
    defaultToken := "0xtok"
    defaultChainId := 84532
    pricing := [("/tool/extract", Worker.PricingEntry.full c6Pricing)]
    defaultPriceUsd := none
    expiryDuration := none
    verifySignatures := false
    checkReplay := true
    hasDb := false
    hasKv := true }

/-- A request to an endpoint absent from `c9Config`'s price schedule. -/
def c9Request : Worker.MWRequest :=
  { path := "/free/page"
    header := none }

/-- A handler returning a fixed 200 response. -/
def okHandler : Worker.PaywallContext → Worker.HResp := fun _ =>
  { status := 200, body := "ok" }

/-- An empty nonce store. -/
def emptyKV : Worker.KVStore :=
  { used := [] }

/-- A payment-header payload satisfying `c6Pricing` under `c9Config`. -/
def c2Payload : WirePayload :=
  { sig := "0xsig"
    payer := "0xpayer"
    nonce := "nonce-xyz"
    expiry := 100
    amount := 1000000
    token := "0xtok"
    chainId := 84532
    txHash := none }

/-- The parsed form of `c2Payload`. -/
def c2Payment : Worker.ParsedPayment :=
  { signature := "0xsig"
    payer := "0xpayer"
    nonce := "nonce-xyz"
    expiry := 100
    amount := 1000000
    token := "0xtok"
    chainId := 84532
    txHash := none }

/-- A priced request carrying the `c2Payload` proof. -/
def c2Request : Worker.MWRequest :=
  { path := "/tool/extract"
    header := some (WireHeader.payload c2Payload) }

/-- A disabled policy (blocks everything). -/
def disabledPolicy : Policy :=
  { okPolicy with id := "p4", name := "Disabled", enabled := false }

/-- An empty client-side ledger. -/
def emptyLedger : Client.Ledger :=
  { contexts := [], payments := [], decisions := [] }

/-- A resolved URL. -/
def sampleUrl : UrlParts :=
  { path := "/tool/extract", host := "api.example.com" }

/-- Decoded challenge headers for a one-dollar charge. -/
def c7Headers : Client.X402Headers :=
  { price := 1000000
    priceUsd := 1
    token := "0xtok"
    seller := "0xseller"
    chainId := 84532
    expiry := 100
    nonce := "nonce-xyz"
    description := none
    schemes := none }

/-- Fetch options with the disabled policy. -/
def c7Options : Client.X402FetchOptions :=
  { policy := disabledPolicy, callerId := "agent-1", autoPay := true, maxRetries := 1 }

/-- A 402 environment whose retry is never reached (policy blocks first). -/
def c7Env : Client.FetchEnv :=
  { initialStatus := 402
    headers := some c7Headers
    signResult := some "0xsignature"
    walletAddress := "0xpayer"
    attempts := [] }

/-- Fetch options with the permissive policy. -/
def c10Options : Client.X402FetchOptions :=
  { policy := okPolicy, callerId := "agent-1", autoPay := true, maxRetries := 1 }

/-- A successful retry response. -/
def c10Retry : Client.RetryResp :=
  { status := 200, receiptId := some "rcpt-1" }

/-- A 402 environment whose paid retry succeeds with status 200. -/
def c10Env : Client.FetchEnv :=
  { initialStatus := 402
    headers := some c7Headers
    signResult := some "0xsignature"
    walletAddress := "0xpayer"
    attempts := [some c10Retry] }

/-! ## Evaluator lemmas -/

theorem runRules_snd (ft : Bool) (p : Policy) (r : PaymentRequest) (c : SpendContext) :
    ∀ rs : List RuleFunction,
      (runRules ft p r c rs).2 = (ruleResults rs p r c).find? fun t => !t.passed
  | [] => by simp [runRules, ruleResults]
  | f :: rest => by
    have ih := runRules_snd ft p r c rest
    cases hp : (f p r c).passed with
    | true => simp [runRules, ruleResults, hp, List.find?_cons, ih]
    | false => cases ft <;> simp [runRules, ruleResults, hp, List.find?_cons]

theorem runRules_fst_false (p : Policy) (r : PaymentRequest) (c : SpendContext) :
    ∀ rs : List RuleFunction,
      (runRules false p r c rs).1 = takeToFirstFailure (ruleResults rs p r c)
  | [] => by simp [runRules, ruleResults, takeToFirstFailure]
  | f :: rest => by
    have ih := runRules_fst_false p r c rest
    cases hp : (f p r c).passed with
    | true => simp [runRules, ruleResults, takeToFirstFailure, hp, ih]
    | false => simp [runRules, ruleResults, takeToFirstFailure, hp]

theorem runRules_fst_true (p : Policy) (r : PaymentRequest) (c : SpendContext) :
    ∀ rs : List RuleFunction, (runRules true p r c rs).1 = ruleResults rs p r c
  | [] => by simp [runRules, ruleResults]
  | f :: rest => by
    have ih := runRules_fst_true p r c rest
    cases hp : (f p r c).passed with
    | true => simp [runRules, ruleResults, hp, ih]
    | false => simp [runRules, ruleResults, hp, ih]

theorem findFail_isNone (l : List RuleTrace) :
    ((l.find? fun t => !t.passed).isNone) = l.all fun t => t.passed := by
  induction l with
  | nil => simp
  | cons a l ih => cases hp : a.passed <;> simp [List.find?_cons, hp, ih]

theorem evaluatePolicy_allow_eq (p : Policy) (r : PaymentRequest) (c : SpendContext)
    (opts : EvaluatorOptions) (now : Int) :
    (evaluatePolicy p r c opts now).allow =
      (ruleResults (opts.rules.getD ALL_RULES) p r c).all fun t => t.passed := by
  simp only [evaluatePolicy]
  rw [runRules_snd, findFail_isNone]

theorem evaluatePolicy_ruleId_eq (p : Policy) (r : PaymentRequest) (c : SpendContext)
    (opts : EvaluatorOptions) (now : Int) :
    (evaluatePolicy p r c opts now).ruleId =
      ((((ruleResults (opts.rules.getD ALL_RULES) p r c).find? fun t => !t.passed).map
        fun t => t.ruleId).getD "all_passed") := by
  simp only [evaluatePolicy]
  rw [runRules_snd]

theorem evaluatePolicy_reason_eq (p : Policy) (r : PaymentRequest) (c : SpendContext)
    (opts : EvaluatorOptions) (now : Int) :
    (evaluatePolicy p r c opts now).reason =
      ((((ruleResults (opts.rules.getD ALL_RULES) p r c).find? fun t => !t.passed).map
        fun t => t.reason).getD "All policy rules passed") := by
  simp only [evaluatePolicy]
  rw [runRules_snd]

theorem evaluatePolicy_trace_eq (p : Policy) (r : PaymentRequest) (c : SpendContext)
    (opts : EvaluatorOptions) (now : Int) :
    (evaluatePolicy p r c opts now).trace =
      (runRules opts.fullTrace p r c (opts.rules.getD ALL_RULES)).1 := by
  simp only [evaluatePolicy]

theorem policyEnabledRule_passed (p : Policy) (r : PaymentRequest) (c : SpendContext) :
    (policyEnabledRule p r c).passed = p.enabled := by
  simp [policyEnabledRule]

theorem toolDenylistRule_ruleId (p : Policy) (r : PaymentRequest) (c : SpendContext) :
    (toolDenylistRule p r c).ruleId = "tool_denylist" := by
  by_cases hc : p.denyTools = [] <;> simp [toolDenylistRule, hc]

theorem domainDenylistRule_ruleId (p : Policy) (r : PaymentRequest) (c : SpendContext) :
    (domainDenylistRule p r c).ruleId = "domain_denylist" := by
  by_cases hc : p.denyDomains = [] <;> simp [domainDenylistRule, hc]

theorem toolDenylistRule_fails (p : Policy) (r : PaymentRequest) (c : SpendContext)
    (hd : p.denyTools.contains r.tool = true) :
    (toolDenylistRule p r c).passed = false := by
  have hne : p.denyTools ≠ [] := by
    intro he
    rw [he] at hd
    simp at hd
  simp [toolDenylistRule, hne, hd]
  simpa using hd

theorem domainDenylistRule_fails (p : Policy) (r : PaymentRequest) (c : SpendContext)
    (hd : domainListMatches p.denyDomains r.domain = true) :
    (domainDenylistRule p r c).passed = false := by
  have hne : p.denyDomains ≠ [] := by
    intro he
    rw [he] at hd
    simp [domainListMatches] at hd
  simp [domainDenylistRule, hne, hd]

theorem anyFail_eq_not_all (l : List RuleTrace) :
    (l.any fun t => !t.passed) = !(l.all fun t => t.passed) := by
  induction l with
  | nil => simp
  | cons a l ih => cases hp : a.passed <;> simp [hp, ih]

/-! ## Claim C1 -/

/-- C1 (counterexample): with an explicitly configured weekly cap of `0` the
evaluator allows a request whose projected weekly spend exceeds that cap,
because `weeklyCapRule` treats the falsy `0` as "no weekly cap configured".
This refutes the claim that `allow = true` implies
`weeklySpentUsd + priceUsd ≤ weeklyCapUsd` whenever a weekly cap is
configured. -/
theorem evaluatePolicy_weekly_zero_cap_cex :
    (evaluatePolicy weeklyZeroPolicy sampleRequest weeklyHeavyContext
      ⟨none, false⟩ 0).allow = true ∧
    weeklyZeroPolicy.weeklyCapUsd = some 0 ∧
    ¬(weeklyHeavyContext.weeklySpentUsd + sampleRequest.priceUsd ≤ (0 : Rat)) := by
  refine ⟨?_, rfl, ?_⟩
  · rw [evaluatePolicy_allow_eq]
    norm_num [ruleResults, ALL_RULES, policyEnabledRule, toolDenylistRule,
      domainDenylistRule, toolAllowlistRule, domainAllowlistRule, perCallCapRule,
      dailyCapRule, weeklyCapRule, weeklyCapUnconfigured, effectivePerCallCap,
      domainListMatches, weeklyZeroPolicy, sampleRequest, weeklyHeavyContext]
  · norm_num [weeklyHeavyContext, sampleRequest]

/-- C1 (amended): in default short-circuit mode, `allow = true` implies the
projected daily spend `currentDailySpend + priceUsd` is within `dailyCapUsd`,
`priceUsd` is within the effective per-call cap (the `endpointCaps` entry for
the request's endpoint when present, else `perCallCapUsd`), and, if a
*nonzero* weekly cap is configured, `weeklySpentUsd + priceUsd` is within it
(the code treats an explicit weekly cap of `0` as unconfigured). -/
theorem evaluatePolicy_allow_within_caps (p : Policy) (r : PaymentRequest)
    (c : SpendContext) (now : Int)
    (h : (evaluatePolicy p r c ⟨none, false⟩ now).allow = true) :
    (evaluatePolicy p r c ⟨none, false⟩ now).projectedSpend =
      c.dailySpentUsd + r.priceUsd ∧
    c.dailySpentUsd + r.priceUsd ≤ p.dailyCapUsd ∧
    r.priceUsd ≤ effectivePerCallCap p r ∧
    ∀ w, p.weeklyCapUsd = some w → w ≠ 0 →
      c.weeklySpentUsd + r.priceUsd ≤ w := by
  refine ⟨rfl, ?_⟩
  rw [evaluatePolicy_allow_eq] at h
  simp only [Option.getD, ruleResults, ALL_RULES, List.map_cons, List.map_nil,
    List.all_cons, List.all_nil, Bool.and_eq_true, Bool.and_true] at h
  obtain ⟨-, -, -, -, -, h6, h7, h8⟩ := h
  refine ⟨?_, ?_, ?_⟩
  · simp [dailyCapRule] at h7
    exact h7
  · simp [perCallCapRule] at h6
    exact h6
  · intro w hw hw0
    simp [weeklyCapRule, hw, hw0] at h8
    exact h8

/-- C1 (witness for the amended theorem). -/
theorem evaluatePolicy_allow_within_caps_witness :
    (evaluatePolicy okPolicy sampleRequest freshContext ⟨none, false⟩ 0).projectedSpend =
      freshContext.dailySpentUsd + sampleRequest.priceUsd ∧
    freshContext.dailySpentUsd + sampleRequest.priceUsd ≤ okPolicy.dailyCapUsd ∧
    sampleRequest.priceUsd ≤ effectivePerCallCap okPolicy sampleRequest ∧
    ∀ w, okPolicy.weeklyCapUsd = some w → w ≠ 0 →
      freshContext.weeklySpentUsd + sampleRequest.priceUsd ≤ w :=
  evaluatePolicy_allow_within_caps okPolicy sampleRequest freshContext 0 (by
    rw [evaluatePolicy_allow_eq]
    norm_num [ruleResults, ALL_RULES, policyEnabledRule, toolDenylistRule,
      domainDenylistRule, toolAllowlistRule, domainAllowlistRule, perCallCapRule,
      dailyCapRule, weeklyCapRule, weeklyCapUnconfigured, effectivePerCallCap,
      domainListMatches, okPolicy, sampleRequest, freshContext])

/-! ## Claim C3 -/

/-- C3: for an enabled policy, a tool listed in both `allowTools` and
`denyTools` is blocked with `ruleId = "tool_denylist"`; a domain matching both
`allowDomains` and `denyDomains` is blocked with the corresponding denylist
rule as `ruleId` (`"domain_denylist"` when the tool denylist rule passes); in
every such clash the decision is a deny attributed to a denylist rule, because
the denylist rules run before the allowlist rules in `ALL_RULES`. -/
theorem denylist_takes_precedence (p : Policy) (r : PaymentRequest)
    (c : SpendContext) (ft : Bool) (now : Int) (hen : p.enabled = true) :
    (p.allowTools.contains r.tool = true → p.denyTools.contains r.tool = true →
      (evaluatePolicy p r c ⟨none, ft⟩ now).allow = false ∧
      (evaluatePolicy p r c ⟨none, ft⟩ now).ruleId = "tool_denylist") ∧
    (domainListMatches p.allowDomains r.domain = true →
      domainListMatches p.denyDomains r.domain = true →
      (toolDenylistRule p r c).passed = true →
      (evaluatePolicy p r c ⟨none, ft⟩ now).allow = false ∧
      (evaluatePolicy p r c ⟨none, ft⟩ now).ruleId = "domain_denylist") ∧
    ((p.allowTools.contains r.tool = true ∧ p.denyTools.contains r.tool = true) ∨
     (domainListMatches p.allowDomains r.domain = true ∧
      domainListMatches p.denyDomains r.domain = true) →
      (evaluatePolicy p r c ⟨none, ft⟩ now).allow = false ∧
      ((evaluatePolicy p r c ⟨none, ft⟩ now).ruleId = "tool_denylist" ∨
       (evaluatePolicy p r c ⟨none, ft⟩ now).ruleId = "domain_denylist")) := by
  have hen1 : (policyEnabledRule p r c).passed = true := by
    simp [policyEnabledRule, hen]
  have htool : p.denyTools.contains r.tool = true →
      (evaluatePolicy p r c ⟨none, ft⟩ now).allow = false ∧
      (evaluatePolicy p r c ⟨none, ft⟩ now).ruleId = "tool_denylist" := by
    intro hd
    have h2 := toolDenylistRule_fails p r c hd
    constructor
    · rw [evaluatePolicy_allow_eq]
      simp [ruleResults, ALL_RULES, h2]
    · rw [evaluatePolicy_ruleId_eq]
      simp [ruleResults, ALL_RULES, List.find?_cons, hen1, h2,
        toolDenylistRule_ruleId]
  have hdom : domainListMatches p.denyDomains r.domain = true →
      (toolDenylistRule p r c).passed = true →
      (evaluatePolicy p r c ⟨none, ft⟩ now).allow = false ∧
      (evaluatePolicy p r c ⟨none, ft⟩ now).ruleId = "domain_denylist" := by
    intro hd hpass
    have h3 := domainDenylistRule_fails p r c hd
    constructor
    · rw [evaluatePolicy_allow_eq]
      simp [ruleResults, ALL_RULES, h3]
    · rw [evaluatePolicy_ruleId_eq]
      simp [ruleResults, ALL_RULES, List.find?_cons, hen1, hpass, h3,
        domainDenylistRule_ruleId]
  refine ⟨fun _ hd => htool hd, fun _ hd hpass => hdom hd hpass, ?_⟩
  rintro (⟨-, hd⟩ | ⟨-, hd⟩)
  · exact ⟨(htool hd).1, Or.inl (htool hd).2⟩
  · cases hpass : (toolDenylistRule p r c).passed with
    | true => exact ⟨(hdom hd hpass).1, Or.inr (hdom hd hpass).2⟩
    | false =>
      constructor
      · rw [evaluatePolicy_allow_eq]
        simp [ruleResults, ALL_RULES, hpass]
      · refine Or.inl ?_
        rw [evaluatePolicy_ruleId_eq]
        simp [ruleResults, ALL_RULES, List.find?_cons, hen1, hpass,
          toolDenylistRule_ruleId]

/-- C3 (witness). -/
theorem denylist_takes_precedence_witness :
    (bothListsPolicy.allowTools.contains sampleRequest.tool = true →
      bothListsPolicy.denyTools.contains sampleRequest.tool = true →
      (evaluatePolicy bothListsPolicy sampleRequest freshContext
        ⟨none, false⟩ 0).allow = false ∧
      (evaluatePolicy bothListsPolicy sampleRequest freshContext
        ⟨none, false⟩ 0).ruleId = "tool_denylist") ∧
    (domainListMatches bothListsPolicy.allowDomains sampleRequest.domain = true →
      domainListMatches bothListsPolicy.denyDomains sampleRequest.domain = true →
      (toolDenylistRule bothListsPolicy sampleRequest freshContext).passed = true →
      (evaluatePolicy bothListsPolicy sampleRequest freshContext
        ⟨none, false⟩ 0).allow = false ∧
      (evaluatePolicy bothListsPolicy sampleRequest freshContext
        ⟨none, false⟩ 0).ruleId = "domain_denylist") ∧
    ((bothListsPolicy.allowTools.contains sampleRequest.tool = true ∧
      bothListsPolicy.denyTools.contains sampleRequest.tool = true) ∨
     (domainListMatches bothListsPolicy.allowDomains sampleRequest.domain = true ∧
      domainListMatches bothListsPolicy.denyDomains sampleRequest.domain = true) →
      (evaluatePolicy bothListsPolicy sampleRequest freshContext
        ⟨none, false⟩ 0).allow = false ∧
      ((evaluatePolicy bothListsPolicy sampleRequest freshContext
        ⟨none, false⟩ 0).ruleId = "tool_denylist" ∨
       (evaluatePolicy bothListsPolicy sampleRequest freshContext
        ⟨none, false⟩ 0).ruleId = "domain_denylist")) :=
  denylist_takes_precedence bothListsPolicy sampleRequest freshContext false 0
    (by simp [bothListsPolicy])

/-! ## Claim C4 -/

/-- C4: `evaluatePolicy` is deterministic: two evaluations of identical
`(policy, request, context)` inputs with identical options agree on `allow`,
`reason`, `ruleId` and the full rule-by-rule trace; only the timestamp
argument may differ between the runs. -/
theorem evaluatePolicy_deterministic (p : Policy) (r : PaymentRequest)
    (c : SpendContext) (opts : EvaluatorOptions) (t₁ t₂ : Int) :
    (evaluatePolicy p r c opts t₁).allow = (evaluatePolicy p r c opts t₂).allow ∧
    (evaluatePolicy p r c opts t₁).reason = (evaluatePolicy p r c opts t₂).reason ∧
    (evaluatePolicy p r c opts t₁).ruleId = (evaluatePolicy p r c opts t₂).ruleId ∧
    (evaluatePolicy p r c opts t₁).trace = (evaluatePolicy p r c opts t₂).trace :=
  ⟨rfl, rfl, rfl, rfl⟩

/-! ## Claim C5 -/

/-- C5: with the default rules, the trace is the prefix of the rule-order
verdict list ending at the first failure in short-circuit mode and the whole
eight-verdict list in full-trace mode; `allow` is false exactly when some rule
failed; and `ruleId`/`reason` come from the first failing verdict in rule
order, with `"all_passed"`/`"All policy rules passed"` when every rule
passes. -/
theorem evaluatePolicy_trace_characterization (p : Policy) (r : PaymentRequest)
    (c : SpendContext) (ft : Bool) (now : Int) :
    (ruleResults ALL_RULES p r c).length = 8 ∧
    (evaluatePolicy p r c ⟨none, ft⟩ now).trace =
      (if ft then ruleResults ALL_RULES p r c
       else takeToFirstFailure (ruleResults ALL_RULES p r c)) ∧
    (evaluatePolicy p r c ⟨none, ft⟩ now).allow =
      ((ruleResults ALL_RULES p r c).all fun t => t.passed) ∧
    ((evaluatePolicy p r c ⟨none, ft⟩ now).allow = false ↔
      ((ruleResults ALL_RULES p r c).any fun t => !t.passed) = true) ∧
    (evaluatePolicy p r c ⟨none, ft⟩ now).ruleId =
      ((((ruleResults ALL_RULES p r c).find? fun t => !t.passed).map
        fun t => t.ruleId).getD "all_passed") ∧
    (evaluatePolicy p r c ⟨none, ft⟩ now).reason =
      ((((ruleResults ALL_RULES p r c).find? fun t => !t.passed).map
        fun t => t.reason).getD "All policy rules passed") := by
  refine ⟨by simp [ruleResults, ALL_RULES], ?_, ?_, ?_, ?_, ?_⟩
  · rw [evaluatePolicy_trace_eq]
    cases ft with
    | true => simp [runRules_fst_true]
    | false => simp [runRules_fst_false]
  · exact evaluatePolicy_allow_eq p r c ⟨none, ft⟩ now
  · rw [evaluatePolicy_allow_eq, anyFail_eq_not_all]
    cases hall : (ruleResults ALL_RULES p r c).all fun t => t.passed <;> simp [hall]
  · exact evaluatePolicy_ruleId_eq p r c ⟨none, ft⟩ now
  · exact evaluatePolicy_reason_eq p r c ⟨none, ft⟩ now

/-! ## Claim C6 -/

/-- C6: with signature verification disabled, `verifyPayment` reports
`valid = true` exactly when the proof is unexpired (`now ≤ expiry`), its asset
and chain match the endpoint's pricing (addresses compared case-insensitively,
as the source's `toLowerCase()` comparison does) and its amount covers the
required amount; and every `valid = false` result carries a non-empty
rejection reason. -/
theorem verifyPayment_valid_iff (now : Int) (payment : Worker.ParsedPayment)
    (pricing : Worker.EndpointPricing) (config : Worker.PaywallConfig)
    (hsig : config.verifySignatures = false) :
    ((Worker.verifyPayment now payment pricing config).valid = true ↔
      (now ≤ payment.expiry ∧
       Worker.strToLower payment.token = Worker.strToLower pricing.token ∧
       payment.chainId = pricing.chainId ∧
       pricing.priceToken ≤ payment.amount)) ∧
    ((Worker.verifyPayment now payment pricing config).valid = false →
      ∃ reason, (Worker.verifyPayment now payment pricing config).reason =
          some reason ∧ reason ≠ "") := by
  by_cases h1 : payment.expiry < now
  · simp [Worker.verifyPayment, h1]
  · by_cases h2 : Worker.strToLower payment.token = Worker.strToLower pricing.token
    · by_cases h3 : payment.chainId = pricing.chainId
      · by_cases h4 : payment.amount < pricing.priceToken
        · simp [Worker.verifyPayment, h1, h2, h3, h4]
        · simp [Worker.verifyPayment, h1, h2, h3, h4, hsig]
          omega
      · simp [Worker.verifyPayment, h1, h2, h3]
    · simp [Worker.verifyPayment, h1, h2]

/-- C6 (witness). -/
theorem verifyPayment_valid_iff_witness :
    ((Worker.verifyPayment 0 c6Payment c6Pricing c6Config).valid = true ↔
      ((0 : Int) ≤ c6Payment.expiry ∧
       Worker.strToLower c6Payment.token = Worker.strToLower c6Pricing.token ∧
       c6Payment.chainId = c6Pricing.chainId ∧
       c6Pricing.priceToken ≤ c6Payment.amount)) ∧
    ((Worker.verifyPayment 0 c6Payment c6Pricing c6Config).valid = false →
      ∃ reason, (Worker.verifyPayment 0 c6Payment c6Pricing c6Config).reason =
          some reason ∧ reason ≠ "") :=
  verifyPayment_valid_iff 0 c6Payment c6Pricing c6Config rfl

/-! ## Claim C8 -/

/-- C8: encoding a payment proof with `createPaymentHeader` and decoding the
resulting header (with the client-side or the seller-side `parsePaymentHeader`)
succeeds whenever `signature`, `payer` and `nonce` are non-empty, and yields a
proof equal to the original in every required field (`signature`, `payer`,
`nonce`, `expiry`, `amount`, `token`, `chainId`). -/
theorem paymentHeader_roundTrip (proof : Client.PaymentProof)
    (hs : proof.signature ≠ "") (hp : proof.payer ≠ "") (hn : proof.nonce ≠ "") :
    (∃ q : Client.PaymentProof,
      Client.parsePaymentHeader
        (WireHeader.payload (Client.createPaymentHeader proof)) = some q ∧
      q.signature = proof.signature ∧ q.payer = proof.payer ∧
      q.nonce = proof.nonce ∧ q.expiry = proof.expiry ∧
      q.amount = proof.amount ∧ q.token = proof.token ∧
      q.chainId = proof.chainId) ∧
    (∃ q : Worker.ParsedPayment,
      Worker.parsePaymentHeader
        (WireHeader.payload (Client.createPaymentHeader proof)) = some q ∧
      q.signature = proof.signature ∧ q.payer = proof.payer ∧
      q.nonce = proof.nonce ∧ q.expiry = proof.expiry ∧
      q.amount = proof.amount ∧ q.token = proof.token ∧
      q.chainId = proof.chainId) := by
  constructor
  · refine ⟨{ signature := proof.signature, payer := proof.payer,
              nonce := proof.nonce, expiry := proof.expiry,
              amount := proof.amount, token := proof.token,
              chainId := proof.chainId,
              txHash := (Client.createPaymentHeader proof).txHash },
            ?_, rfl, rfl, rfl, rfl, rfl, rfl, rfl⟩
    simp only [Client.parsePaymentHeader, Client.createPaymentHeader]
    simp [hs, hp, hn]
  · refine ⟨{ signature := proof.signature, payer := proof.payer,
              nonce := proof.nonce, expiry := proof.expiry,
              amount := proof.amount, token := proof.token,
              chainId := proof.chainId,
              txHash := (Client.createPaymentHeader proof).txHash },
            ?_, rfl, rfl, rfl, rfl, rfl, rfl, rfl⟩
    simp only [Worker.parsePaymentHeader, Client.createPaymentHeader]
    simp [hs, hp, hn]

/-- C8 (witness). -/
theorem paymentHeader_roundTrip_witness :
    (∃ q : Client.PaymentProof,
      Client.parsePaymentHeader
        (WireHeader.payload (Client.createPaymentHeader c8Proof)) = some q ∧
      q.signature = c8Proof.signature ∧ q.payer = c8Proof.payer ∧
      q.nonce = c8Proof.nonce ∧ q.expiry = c8Proof.expiry ∧
      q.amount = c8Proof.amount ∧ q.token = c8Proof.token ∧
      q.chainId = c8Proof.chainId) ∧
    (∃ q : Worker.ParsedPayment,
      Worker.parsePaymentHeader
        (WireHeader.payload (Client.createPaymentHeader c8Proof)) = some q ∧
      q.signature = c8Proof.signature ∧ q.payer = c8Proof.payer ∧
      q.nonce = c8Proof.nonce ∧ q.expiry = c8Proof.expiry ∧
      q.amount = c8Proof.amount ∧ q.token = c8Proof.token ∧
      q.chainId = c8Proof.chainId) :=
  paymentHeader_roundTrip c8Proof (by decide) (by decide) (by decide)

/-! ## Claim C9 -/

/-- C9: when the endpoint resolves to no pricing entry, the middleware calls
the protected handler exactly once with a context of `paid = false`,
`priceUsd = 0` and an empty nonce, returns the handler's response unmodified
(in particular no challenge, since the response is `handlerResp`), performs no
nonce-store read or write, writes no receipt, and leaves the nonce store
unchanged. -/
theorem withX402Paywall_unpriced_passthrough (config : Worker.PaywallConfig)
    (handler : Worker.PaywallContext → Worker.HResp) (req : Worker.MWRequest)
    (now : Int) (freshNonce freshReceiptId : String) (kv : Worker.KVStore)
    (h : Worker.getPriceForEndpoint req.path config = none) :
    Worker.withX402Paywall config handler req now freshNonce freshReceiptId kv =
      ({ response := Worker.MWResponse.handlerResp
           (handler { paid := false, payment := none, receiptId := none,
                      priceUsd := 0, nonce := "" })
         handlerCalls := 1
         handlerCtx := some { paid := false, payment := none, receiptId := none,
                              priceUsd := 0, nonce := "" }
         kvReads := 0
         kvWrites := 0
         receiptWrites := 0 }, kv) := by
  simp [Worker.withX402Paywall, h]

/-! ## Claim C2 -/

/-- C2: with replay checking configured (`checkReplay` and a KV namespace), a
first request whose proof verifies and whose nonce is fresh runs the handler
(after marking the nonce spent in the store), and a second request whose proof
verifies but bears the same nonce is rejected with status 400 and the
"Payment nonce already used" error, without invoking the handler and without
touching the store again — so the handler never runs twice for one nonce. -/
theorem nonce_replay_rejected
    (config : Worker.PaywallConfig)
    (h1 h2 : Worker.PaywallContext → Worker.HResp)
    (req1 req2 : Worker.MWRequest) (now1 now2 : Int)
    (n1 n2 rid1 rid2 : String) (kv : Worker.KVStore)
    (pricing1 pricing2 : Worker.EndpointPricing)
    (wire1 wire2 : WireHeader) (pay1 pay2 : Worker.ParsedPayment)
    (hreplay : config.checkReplay = true) (hkv : config.hasKv = true)
    (hp1 : Worker.getPriceForEndpoint req1.path config = some pricing1)
    (hh1 : req1.header = some wire1)
    (hparse1 : Worker.parsePaymentHeader wire1 = some pay1)
    (hv1 : (Worker.verifyPayment now1 pay1 pricing1 config).valid = true)
    (hfresh : kv.used.contains ("nonce:" ++ pay1.nonce) = false)
    (hp2 : Worker.getPriceForEndpoint req2.path config = some pricing2)
    (hh2 : req2.header = some wire2)
    (hparse2 : Worker.parsePaymentHeader wire2 = some pay2)
    (hv2 : (Worker.verifyPayment now2 pay2 pricing2 config).valid = true)
    (hsame : pay2.nonce = pay1.nonce) :
    (Worker.withX402Paywall config h1 req1 now1 n1 rid1 kv).1.handlerCalls = 1 ∧
    (Worker.withX402Paywall config h1 req1 now1 n1 rid1 kv).2.used.contains
      ("nonce:" ++ pay1.nonce) = true ∧
    (Worker.withX402Paywall config h2 req2 now2 n2 rid2
      (Worker.withX402Paywall config h1 req1 now1 n1 rid1 kv).2).1.response =
      Worker.MWResponse.replayRejected ∧
    (Worker.withX402Paywall config h2 req2 now2 n2 rid2
      (Worker.withX402Paywall config h1 req1 now1 n1 rid1 kv).2).1.response.status
      = 400 ∧
    (Worker.withX402Paywall config h2 req2 now2 n2 rid2
      (Worker.withX402Paywall config h1 req1 now1 n1 rid1 kv).2).1.response.errorBody
      = some "Payment nonce already used" ∧
    (Worker.withX402Paywall config h2 req2 now2 n2 rid2
      (Worker.withX402Paywall config h1 req1 now1 n1 rid1 kv).2).1.handlerCalls = 0 ∧
    (Worker.withX402Paywall config h2 req2 now2 n2 rid2
      (Worker.withX402Paywall config h1 req1 now1 n1 rid1 kv).2).2 =
      (Worker.withX402Paywall config h1 req1 now1 n1 rid1 kv).2 := by
  have hfresh2 : ¬(("nonce:" ++ pay1.nonce) ∈ kv.used) := by
    simpa using hfresh
  have e1 : Worker.withX402Paywall config h1 req1 now1 n1 rid1 kv =
      (Worker.servePaid config h1 pricing1 pay1 rid1 1 1,
       { used := ("nonce:" ++ pay1.nonce) :: kv.used }) := by
    simp [Worker.withX402Paywall, hp1, hh1, hparse1, hv1, hreplay, hkv, hfresh2]
  have hmem : ("nonce:" ++ pay2.nonce) ∈ (("nonce:" ++ pay1.nonce) :: kv.used) := by
    simp [hsame]
  have e2 : Worker.withX402Paywall config h2 req2 now2 n2 rid2
      ({ used := ("nonce:" ++ pay1.nonce) :: kv.used } : Worker.KVStore) =
      ({ response := Worker.MWResponse.replayRejected
         handlerCalls := 0
         handlerCtx := none
         kvReads := 1
         kvWrites := 0
         receiptWrites := 0 },
       { used := ("nonce:" ++ pay1.nonce) :: kv.used }) := by
    simp [Worker.withX402Paywall, hp2, hh2, hparse2, hv2, hreplay, hkv, hmem]
  rw [e1]
  refine ⟨rfl, ?_, ?_, ?_, ?_, ?_, ?_⟩ <;>
    simp [e2, Worker.servePaid, Worker.MWResponse.status, Worker.MWResponse.errorBody,
      List.contains_cons]

/-- C2 (witness). -/
theorem nonce_replay_rejected_witness :
    (Worker.withX402Paywall c9Config okHandler c2Request 0 "f1" "r1" emptyKV).1.handlerCalls = 1 ∧
    (Worker.withX402Paywall c9Config okHandler c2Request 0 "f1" "r1" emptyKV).2.used.contains
      ("nonce:" ++ c2Payment.nonce) = true ∧
    (Worker.withX402Paywall c9Config okHandler c2Request 0 "f2" "r2"
      (Worker.withX402Paywall c9Config okHandler c2Request 0 "f1" "r1" emptyKV).2).1.response =
      Worker.MWResponse.replayRejected ∧
    (Worker.withX402Paywall c9Config okHandler c2Request 0 "f2" "r2"
      (Worker.withX402Paywall c9Config okHandler c2Request 0 "f1" "r1" emptyKV).2).1.response.status
      = 400 ∧
    (Worker.withX402Paywall c9Config okHandler c2Request 0 "f2" "r2"
      (Worker.withX402Paywall c9Config okHandler c2Request 0 "f1" "r1" emptyKV).2).1.response.errorBody
      = some "Payment nonce already used" ∧
    (Worker.withX402Paywall c9Config okHandler c2Request 0 "f2" "r2"
      (Worker.withX402Paywall c9Config okHandler c2Request 0 "f1" "r1" emptyKV).2).1.handlerCalls = 0 ∧
    (Worker.withX402Paywall c9Config okHandler c2Request 0 "f2" "r2"
      (Worker.withX402Paywall c9Config okHandler c2Request 0 "f1" "r1" emptyKV).2).2 =
      (Worker.withX402Paywall c9Config okHandler c2Request 0 "f1" "r1" emptyKV).2 :=
  nonce_replay_rejected c9Config okHandler okHandler c2Request c2Request 0 0
    "f1" "f2" "r1" "r2" emptyKV c6Pricing c6Pricing
    (WireHeader.payload c2Payload) (WireHeader.payload c2Payload)
    c2Payment c2Payment rfl rfl (by decide) rfl (by decide) (by decide)
    (by decide) (by decide) rfl (by decide) (by decide) rfl

/-- C9 (witness). -/
theorem withX402Paywall_unpriced_passthrough_witness :
    Worker.withX402Paywall c9Config okHandler c9Request 0 "n1" "r1" emptyKV =
      ({ response := Worker.MWResponse.handlerResp
           (okHandler { paid := false, payment := none, receiptId := none,
                        priceUsd := 0, nonce := "" })
         handlerCalls := 1
         handlerCtx := some { paid := false, payment := none, receiptId := none,
                              priceUsd := 0, nonce := "" }
         kvReads := 0
         kvWrites := 0
         receiptWrites := 0 }, emptyKV) :=
  withX402Paywall_unpriced_passthrough c9Config okHandler c9Request 0 "n1" "r1"
    emptyKV (by decide)

/-! ## Ledger lemmas -/

theorem getSpendContext_decisions (cid : String) (now : Int) (st : Client.Ledger) :
    ((Client.getSpendContext cid now st).2).decisions = st.decisions := by
  cases h : st.contexts.lookup cid <;> simp [Client.getSpendContext, h]

theorem recordPayment_decisions (cid : String) (amt : Rat)
    (e n pr : String) (now : Int) (st : Client.Ledger) :
    (Client.recordPayment cid amt e n pr now st).decisions = st.decisions := by
  unfold Client.recordPayment
  simp [getSpendContext_decisions]

theorem retryLoop_decisions (cid e : String) (pu : Rat) (h : Client.X402Headers)
    (proof : Client.PaymentProof) (d : PolicyDecision) (now : Int) (mr : Nat) :
    ∀ (budget : Nat) (attempts : List (Option Client.RetryResp)) (st : Client.Ledger),
      (Client.retryLoop cid e pu h proof d now mr budget attempts st).ledger.decisions
        = st.decisions
  | 0, _, _ => rfl
  | Nat.succ b, [], st => by
    simpa [Client.retryLoop] using
      retryLoop_decisions cid e pu h proof d now mr b [] st
  | Nat.succ b, none :: rest, st => by
    simpa [Client.retryLoop] using
      retryLoop_decisions cid e pu h proof d now mr b rest st
  | Nat.succ b, some r :: rest, st => by
    by_cases hok : r.ok = true <;>
      simp [Client.retryLoop, hok, recordPayment_decisions]

theorem getSpendContext_fst_congr (cid : String) (now : Int)
    (st st' : Client.Ledger) (h : st.contexts = st'.contexts) :
    (Client.getSpendContext cid now st).1 = (Client.getSpendContext cid now st').1 := by
  cases hl : st'.contexts.lookup cid <;> simp [Client.getSpendContext, h, hl]

theorem getSpendContext_fst_idem (cid : String) (now : Int) (st : Client.Ledger) :
    (Client.getSpendContext cid now ((Client.getSpendContext cid now st).2)).1 =
      (Client.getSpendContext cid now st).1 := by
  cases h : st.contexts.lookup cid with
  | some c => simp [Client.getSpendContext, h]
  | none => simp [Client.getSpendContext, h, List.lookup]

theorem recordPayment_lookup_self (cid : String) (amt : Rat)
    (e n pr : String) (now : Int) (st : Client.Ledger) :
    (Client.recordPayment cid amt e n pr now st).contexts.lookup cid =
      some { (Client.getSpendContext cid now st).1 with
             dailySpentUsd := (Client.getSpendContext cid now st).1.dailySpentUsd + amt
             weeklySpentUsd := (Client.getSpendContext cid now st).1.weeklySpentUsd + amt
             dailyCallCount := (Client.getSpendContext cid now st).1.dailyCallCount + 1
             timestamp := now } := by
  unfold Client.recordPayment
  simp [List.lookup]

/-! ## Claim C7 -/

/-- C7: on a 402 with a decodable challenge, `x402Fetch` appends the policy
decision to the ledger's decision log regardless of outcome; and if the
decision denies, or automatic payment is disabled, it raises a policy-blocked
error carrying the decision and the challenge headers without ever invoking
the signing capability. -/
theorem x402Fetch_records_decision_and_blocks (options : Client.X402FetchOptions)
    (u : UrlParts) (env : Client.FetchEnv) (now : Int) (st : Client.Ledger)
    (hdrs : Client.X402Headers)
    (h402 : env.initialStatus = 402) (hH : env.headers = some hdrs) :
    ((Client.x402Fetch options u env now st).ledger.decisions =
      st.decisions ++
        [⟨options.callerId, Client.fetchDecision options u hdrs now st, u.path,
          hdrs.priceUsd⟩]) ∧
    ((Client.fetchDecision options u hdrs now st).allow = false →
      (Client.x402Fetch options u env now st).outcome =
        Client.FetchOutcome.policyBlocked
          ("Payment blocked by policy: " ++
            (Client.fetchDecision options u hdrs now st).reason)
          (Client.fetchDecision options u hdrs now st) hdrs ∧
      (Client.x402Fetch options u env now st).signCalls = 0) ∧
    ((Client.fetchDecision options u hdrs now st).allow = true →
      options.autoPay = false →
      (Client.x402Fetch options u env now st).outcome =
        Client.FetchOutcome.policyBlocked "Payment required but autoPay is disabled"
          (Client.fetchDecision options u hdrs now st) hdrs ∧
      (Client.x402Fetch options u env now st).signCalls = 0) := by
  refine ⟨?_, ?_, ?_⟩
  · by_cases hal : (Client.fetchDecision options u hdrs now st).allow = false
    · simp [Client.x402Fetch, h402, hH, hal, Client.recordDecision,
        getSpendContext_decisions, parsePaymentRequest]
    · by_cases hap : options.autoPay = false
      · simp [Client.x402Fetch, h402, hH, hal, hap, Client.recordDecision,
          getSpendContext_decisions, parsePaymentRequest]
      · cases hs : env.signResult with
        | none =>
          simp [Client.x402Fetch, h402, hH, hal, hap, hs, Client.recordDecision,
            getSpendContext_decisions, parsePaymentRequest]
        | some sig =>
          simp [Client.x402Fetch, h402, hH, hal, hap, hs, retryLoop_decisions,
            Client.recordDecision, getSpendContext_decisions, parsePaymentRequest]
  · intro hal
    constructor <;> simp [Client.x402Fetch, h402, hH, hal]
  · intro hal hap
    constructor <;> simp [Client.x402Fetch, h402, hH, hal, hap]

/-- C7 (witness): a disabled policy denies, so the call is blocked with the
decision recorded. -/
theorem x402Fetch_records_decision_and_blocks_witness :
    ((Client.x402Fetch c7Options sampleUrl c7Env 0 emptyLedger).ledger.decisions =
      emptyLedger.decisions ++
        [⟨c7Options.callerId, Client.fetchDecision c7Options sampleUrl c7Headers 0 emptyLedger,
          sampleUrl.path, c7Headers.priceUsd⟩]) ∧
    ((Client.fetchDecision c7Options sampleUrl c7Headers 0 emptyLedger).allow = false →
      (Client.x402Fetch c7Options sampleUrl c7Env 0 emptyLedger).outcome =
        Client.FetchOutcome.policyBlocked
          ("Payment blocked by policy: " ++
            (Client.fetchDecision c7Options sampleUrl c7Headers 0 emptyLedger).reason)
          (Client.fetchDecision c7Options sampleUrl c7Headers 0 emptyLedger) c7Headers ∧
      (Client.x402Fetch c7Options sampleUrl c7Env 0 emptyLedger).signCalls = 0) ∧
    ((Client.fetchDecision c7Options sampleUrl c7Headers 0 emptyLedger).allow = true →
      c7Options.autoPay = false →
      (Client.x402Fetch c7Options sampleUrl c7Env 0 emptyLedger).outcome =
        Client.FetchOutcome.policyBlocked "Payment required but autoPay is disabled"
          (Client.fetchDecision c7Options sampleUrl c7Headers 0 emptyLedger) c7Headers ∧
      (Client.x402Fetch c7Options sampleUrl c7Env 0 emptyLedger).signCalls = 0) :=
  x402Fetch_records_decision_and_blocks c7Options sampleUrl c7Env 0 emptyLedger
    c7Headers rfl rfl

/-! ## Claim C10 -/

/-- C10: once the policy allows, autoPay is on, signing succeeds and the first
paid retry gets a transport-level response, `x402Fetch` returns that response
as paid (`x402Paid = true`, with the proof and decision attached) for *any*
HTTP status, while `recordPayment` (which bumps the daily and weekly
accumulators and the daily call count) runs iff the response is `ok` — a 402
or 5xx retry is still reported as paid with no payment recorded. -/
theorem x402Fetch_paid_annotation_vs_recording (options : Client.X402FetchOptions)
    (u : UrlParts) (env : Client.FetchEnv) (now : Int) (st : Client.Ledger)
    (hdrs : Client.X402Headers) (sig : String) (r : Client.RetryResp)
    (rest : List (Option Client.RetryResp)) (k : Nat)
    (h402 : env.initialStatus = 402) (hH : env.headers = some hdrs)
    (hallow : (Client.fetchDecision options u hdrs now st).allow = true)
    (hauto : options.autoPay = true)
    (hsig : env.signResult = some sig)
    (hatt : env.attempts = some r :: rest)
    (hmr : options.maxRetries = k + 1) :
    (Client.x402Fetch options u env now st).outcome =
      Client.FetchOutcome.paid r.status
        { signature := sig, payer := env.walletAddress, nonce := hdrs.nonce,
          expiry := hdrs.expiry, amount := hdrs.price, token := hdrs.token,
          chainId := hdrs.chainId, txHash := none }
        (Client.fetchDecision options u hdrs now st) r.receiptId ∧
    (Client.x402Fetch options u env now st).paymentRecorded = r.ok ∧
    (r.ok = true →
      (Client.x402Fetch options u env now st).ledger =
        Client.recordPayment options.callerId hdrs.priceUsd u.path hdrs.nonce
          (sig.take 16) now
          (Client.recordDecision options.callerId
            (Client.fetchDecision options u hdrs now st) u.path hdrs.priceUsd
            ((Client.getSpendContext options.callerId now st).2))) ∧
    (r.ok = false →
      (Client.x402Fetch options u env now st).ledger =
        Client.recordDecision options.callerId
          (Client.fetchDecision options u hdrs now st) u.path hdrs.priceUsd
          ((Client.getSpendContext options.callerId now st).2)) ∧
    (r.ok = true →
      (Client.x402Fetch options u env now st).ledger.contexts.lookup options.callerId =
        some { (Client.getSpendContext options.callerId now st).1 with
               dailySpentUsd :=
                 (Client.getSpendContext options.callerId now st).1.dailySpentUsd +
                   hdrs.priceUsd
               weeklySpentUsd :=
                 (Client.getSpendContext options.callerId now st).1.weeklySpentUsd +
                   hdrs.priceUsd
               dailyCallCount :=
                 (Client.getSpendContext options.callerId now st).1.dailyCallCount + 1
               timestamp := now }) := by
  have hfetch : Client.x402Fetch options u env now st =
      Client.retryLoop options.callerId u.path hdrs.priceUsd hdrs
        { signature := sig, payer := env.walletAddress, nonce := hdrs.nonce,
          expiry := hdrs.expiry, amount := hdrs.price, token := hdrs.token,
          chainId := hdrs.chainId, txHash := none }
        (Client.fetchDecision options u hdrs now st) now options.maxRetries
        options.maxRetries env.attempts
        (Client.recordDecision options.callerId
          (Client.fetchDecision options u hdrs now st) u.path hdrs.priceUsd
          ((Client.getSpendContext options.callerId now st).2)) := by
    simp [Client.x402Fetch, h402, hH, hallow, hauto, hsig, parsePaymentRequest]
  have hctx2 : (Client.getSpendContext options.callerId now
      (Client.recordDecision options.callerId
        (Client.fetchDecision options u hdrs now st) u.path hdrs.priceUsd
        ((Client.getSpendContext options.callerId now st).2))).1 =
      (Client.getSpendContext options.callerId now st).1 := by
    rw [getSpendContext_fst_congr options.callerId now
      (Client.recordDecision options.callerId
        (Client.fetchDecision options u hdrs now st) u.path hdrs.priceUsd
        ((Client.getSpendContext options.callerId now st).2))
      ((Client.getSpendContext options.callerId now st).2) rfl]
    exact getSpendContext_fst_idem options.callerId now st
  rw [hfetch, hmr, hatt]
  by_cases hok : r.ok = true
  · refine ⟨?_, ?_, ?_, ?_, ?_⟩ <;>
      simp [Client.retryLoop, hok, recordPayment_lookup_self, hctx2]
  · have hok2 : r.ok = false := by
      cases hcase : r.ok
      · rfl
      · exact absurd hcase hok
    refine ⟨?_, ?_, ?_, ?_, ?_⟩ <;>
      simp [Client.retryLoop, hok, hok2]

/-- C10 (witness). -/
theorem x402Fetch_paid_annotation_vs_recording_witness :
    (Client.x402Fetch c10Options sampleUrl c10Env 0 emptyLedger).outcome =
      Client.FetchOutcome.paid c10Retry.status
        { signature := "0xsignature", payer := c10Env.walletAddress,
          nonce := c7Headers.nonce, expiry := c7Headers.expiry,
          amount := c7Headers.price, token := c7Headers.token,
          chainId := c7Headers.chainId, txHash := none }
        (Client.fetchDecision c10Options sampleUrl c7Headers 0 emptyLedger)
        c10Retry.receiptId ∧
    (Client.x402Fetch c10Options sampleUrl c10Env 0 emptyLedger).paymentRecorded =
      c10Retry.ok ∧
    (c10Retry.ok = true →
      (Client.x402Fetch c10Options sampleUrl c10Env 0 emptyLedger).ledger =
        Client.recordPayment c10Options.callerId c7Headers.priceUsd sampleUrl.path
          c7Headers.nonce ("0xsignature".take 16) 0
          (Client.recordDecision c10Options.callerId
            (Client.fetchDecision c10Options sampleUrl c7Headers 0 emptyLedger)
            sampleUrl.path c7Headers.priceUsd
            ((Client.getSpendContext c10Options.callerId 0 emptyLedger).2))) ∧
    (c10Retry.ok = false →
      (Client.x402Fetch c10Options sampleUrl c10Env 0 emptyLedger).ledger =
        Client.recordDecision c10Options.callerId
          (Client.fetchDecision c10Options sampleUrl c7Headers 0 emptyLedger)
          sampleUrl.path c7Headers.priceUsd
          ((Client.getSpendContext c10Options.callerId 0 emptyLedger).2)) ∧
    (c10Retry.ok = true →
      (Client.x402Fetch c10Options sampleUrl c10Env 0 emptyLedger).ledger.contexts.lookup
          c10Options.callerId =
        some { (Client.getSpendContext c10Options.callerId 0 emptyLedger).1 with
               dailySpentUsd :=
                 (Client.getSpendContext c10Options.callerId 0 emptyLedger).1.dailySpentUsd +
                   c7Headers.priceUsd
               weeklySpentUsd :=
                 (Client.getSpendContext c10Options.callerId 0 emptyLedger).1.weeklySpentUsd +
                   c7Headers.priceUsd
               dailyCallCount :=
                 (Client.getSpendContext c10Options.callerId 0 emptyLedger).1.dailyCallCount + 1
               timestamp := 0 }) :=
  x402Fetch_paid_annotation_vs_recording c10Options sampleUrl c10Env 0 emptyLedger
    c7Headers "0xsignature" c10Retry [] 0 rfl rfl
    (by
      show (Client.fetchDecision c10Options sampleUrl c7Headers 0 emptyLedger).allow = true
      unfold Client.fetchDecision
      rw [evaluatePolicy_allow_eq]
      norm_num [ruleResults, ALL_RULES, policyEnabledRule, toolDenylistRule,
        domainDenylistRule, toolAllowlistRule, domainAllowlistRule, perCallCapRule,
        dailyCapRule, weeklyCapRule, weeklyCapUnconfigured, effectivePerCallCap,
        domainListMatches, okPolicy, c10Options, c7Headers, sampleUrl, emptyLedger,
        parsePaymentRequest, Client.getSpendContext, createSpendContext])
    rfl rfl rfl rfl

end X402
